import Mathlib

/-!
# Verification of the solapi-go authenticated-request client

A shallow embedding of the Go SDK's request-signing and HTTP dispatch logic
(`apirequest/apirequest.go`, `storage` package) together with proofs of the
specification's claims about it.

Machine integers are modelled as `Nat` with explicit reduction modulo `2^32`
where the Go code works on `uint32` words (inside SHA-256).  Effects
(randomness, the clock, the network transport, stdlib JSON codecs) are
modelled as explicit parameters, so every definition is executable.
-/

set_option maxRecDepth 1000000

namespace Solapi

/-! ## 32-bit word helpers -/

/-- Reduce to a 32-bit word, the implicit wrap-around of Go's `uint32`. -/
def w32 (n : Nat) : Nat := n % 4294967296

/-- Right rotation of a 32-bit word. -/
def rotr32 (k x : Nat) : Nat := w32 (x >>> k ||| x <<< (32 - k))

/-- 32-bit bitwise complement (Go's `^x` on `uint32`). -/
def compl32 (x : Nat) : Nat := x ^^^ 4294967295

/-! ## SHA-256 (FIPS 180-4), the hash underlying Go's `crypto/sha256` -/

def ch32 (x y z : Nat) : Nat := (x &&& y) ^^^ (compl32 x &&& z)

def maj32 (x y z : Nat) : Nat := (x &&& y) ^^^ (x &&& z) ^^^ (y &&& z)

def bigSigma0 (x : Nat) : Nat := rotr32 2 x ^^^ rotr32 13 x ^^^ rotr32 22 x

def bigSigma1 (x : Nat) : Nat := rotr32 6 x ^^^ rotr32 11 x ^^^ rotr32 25 x

def smallSigma0 (x : Nat) : Nat := rotr32 7 x ^^^ rotr32 18 x ^^^ (x >>> 3)

def smallSigma1 (x : Nat) : Nat := rotr32 17 x ^^^ rotr32 19 x ^^^ (x >>> 10)

/-- The 64 SHA-256 round constants (FIPS 180-4 §4.2.2, here in decimal;
the first is 0x428a2f98, the last 0xc67178f2). -/
def sha256K : List Nat :=
  [1116352408, 1899447441, 3049323471, 3921009573,
   961987163, 1508970993, 2453635748, 2870763221,
   3624381080, 310598401, 607225278, 1426881987,
   1925078388, 2162078206, 2614888103, 3248222580,
   3835390401, 4022224774, 264347078, 604807628,
   770255983, 1249150122, 1555081692, 1996064986,
   2554220882, 2821834349, 2952996808, 3210313671,
   3336571891, 3584528711, 113926993, 338241895,
   666307205, 773529912, 1294757372, 1396182291,
   1695183700, 1986661051, 2177026350, 2456956037,
   2730485921, 2820302411, 3259730800, 3345764771,
   3516065817, 3600352804, 4094571909, 275423344,
   430227734, 506948616, 659060556, 883997877,
   958139571, 1322822218, 1537002063, 1747873779,
   1955562222, 2024104815, 2227730452, 2361852424,
   2428436474, 2756734187, 3204031479, 3329325298]

/-- The eight 32-bit words of a SHA-256 chaining state. -/
structure Hash8 where
  a : Nat
  b : Nat
  c : Nat
  d : Nat
  e : Nat
  f : Nat
  g : Nat
  h : Nat
deriving Repr, DecidableEq

/-- The SHA-256 initial hash value (FIPS 180-4 §5.3.3, in decimal; the
first word is 0x6a09e667, the last 0x5be0cd19). -/
def sha256H0 : Hash8 :=
  ⟨1779033703, 3144134277, 1013904242, 2773480762,
   1359893119, 2600822924, 528734635, 1541459225⟩

/-- Extend the 16 words of a block to the 64-word message schedule. -/
def scheduleW (blockWords : List Nat) : List Nat :=
  ((List.range 48).foldl (fun w t =>
      w.push (w32 (smallSigma1 (w.getD (t + 14) 0) + w.getD (t + 9) 0 +
        smallSigma0 (w.getD (t + 1) 0) + w.getD t 0)))
    blockWords.toArray).toList

/-- One SHA-256 round, fed the pair (round constant, schedule word). -/
def sha256Round (s : Hash8) (kw : Nat × Nat) : Hash8 :=
  let t1 := w32 (s.h + bigSigma1 s.e + ch32 s.e s.f s.g + kw.1 + kw.2)
  let t2 := w32 (bigSigma0 s.a + maj32 s.a s.b s.c)
  ⟨w32 (t1 + t2), s.a, s.b, s.c, w32 (s.d + t1), s.e, s.f, s.g⟩

/-- The SHA-256 compression function on one 16-word block. -/
def sha256Compress (s : Hash8) (blockWords : List Nat) : Hash8 :=
  let t := (sha256K.zip (scheduleW blockWords)).foldl sha256Round s
  ⟨w32 (s.a + t.a), w32 (s.b + t.b), w32 (s.c + t.c), w32 (s.d + t.d),
   w32 (s.e + t.e), w32 (s.f + t.f), w32 (s.g + t.g), w32 (s.h + t.h)⟩

/-- Big-endian bytes of a 64-bit length field. -/
def be64Bytes (n : Nat) : List Nat :=
  [(n >>> 56) % 256, (n >>> 48) % 256, (n >>> 40) % 256, (n >>> 32) % 256,
   (n >>> 24) % 256, (n >>> 16) % 256, (n >>> 8) % 256, n % 256]

/-- Big-endian bytes of a 32-bit word. -/
def be32Bytes (n : Nat) : List Nat :=
  [(n >>> 24) % 256, (n >>> 16) % 256, (n >>> 8) % 256, n % 256]

/-- SHA-256 padding: append `0x80`, zeros, and the 64-bit bit length, to a
multiple of 64 bytes. -/
def sha256Pad (msg : List Nat) : List Nat :=
  msg ++ 128 :: List.replicate ((64 - (msg.length + 9) % 64) % 64) 0 ++
    be64Bytes (8 * msg.length)

/-- Group a big-endian byte stream into 32-bit words. -/
def bytesToWords : List Nat → List Nat
  | b0 :: b1 :: b2 :: b3 :: rest =>
      (b0 <<< 24 ||| b1 <<< 16 ||| b2 <<< 8 ||| b3) :: bytesToWords rest
  | _ => []

/-- Split a byte stream into 64-byte blocks (structural recursion on a fuel
bound, so that the definition reduces inside the kernel). -/
def chunk64Go : Nat → List Nat → List (List Nat)
  | _, [] => []
  | 0, _ :: _ => []
  | fuel + 1, b :: rest => (b :: rest).take 64 :: chunk64Go fuel (rest.drop 63)

/-- Split a byte stream into 64-byte blocks. -/
def chunk64 (l : List Nat) : List (List Nat) := chunk64Go l.length l

/-- Serialize a chaining state as 32 big-endian digest bytes. -/
def sha256Digest (s : Hash8) : List Nat :=
  be32Bytes s.a ++ be32Bytes s.b ++ be32Bytes s.c ++ be32Bytes s.d ++
    be32Bytes s.e ++ be32Bytes s.f ++ be32Bytes s.g ++ be32Bytes s.h

/-- The SHA-256 digest of a byte string, as 32 bytes. -/
def sha256 (msg : List Nat) : List Nat :=
  sha256Digest ((chunk64 (sha256Pad msg)).foldl
    (fun s b => sha256Compress s (bytesToWords b)) sha256H0)

/-! ## HMAC-SHA256 (RFC 2104), the construction of Go's `crypto/hmac` -/

/-- HMAC-SHA256 of a message under a key, as 32 bytes. -/
def hmacSha256 (key msg : List Nat) : List Nat :=
  let k0 := if key.length > 64 then sha256 key else key
  let kp := k0 ++ List.replicate (64 - k0.length) 0
  sha256 ((kp.map (fun b => b ^^^ 0x5c)) ++
    sha256 ((kp.map (fun b => b ^^^ 0x36)) ++ msg))

/-! ## Hex encoding, as Go's `encoding/hex` (lowercase digits) -/

/-- One lowercase hex digit. -/
def hexDigit (n : Nat) : Char :=
  if n < 10 then Char.ofNat (48 + n) else Char.ofNat (87 + n)

/-- The two lowercase hex digit characters of each byte, high nibble first. -/
def hexChars (bs : List Nat) : List Char :=
  bs.foldr (fun b r => hexDigit (b >>> 4) :: hexDigit (b &&& 15) :: r) []

/-- Lowercase hex encoding of a byte string, high nibble first, as Go's
`hex.EncodeToString`. -/
def hexEncode (bs : List Nat) : String :=
  String.mk (hexChars bs)

/-! ## UTF-8, Go's `[]byte(s)` conversion of a string to bytes -/

/-- UTF-8 encoding of one scalar value. -/
def encChar (c : Char) : List Nat :=
  let n := c.toNat
  if n < 128 then [n]
  else if n < 2048 then [192 ||| n >>> 6, 128 ||| (n &&& 63)]
  else if n < 65536 then
    [224 ||| n >>> 12, 128 ||| (n >>> 6 &&& 63), 128 ||| (n &&& 63)]
  else
    [240 ||| n >>> 18, 128 ||| (n >>> 12 &&& 63), 128 ||| (n >>> 6 &&& 63),
     128 ||| (n &&& 63)]

/-- The UTF-8 bytes of a string, Go's `[]byte(s)`. -/
def utf8Bytes (s : String) : List Nat :=
  s.data.foldr (fun c r => encChar c ++ r) []

/-- The sixteen lowercase hex digit characters. -/
def lowerHexDigits : List Char := "0123456789abcdef".data

/-! ## The `APIRequest` client state (`apirequest/apirequest.go`) -/

/-- The Go SDK version constant. -/
def sdkVersion : String := "GO-SDK v1.0"

/-- The `APIRequest` struct: HTTP bookkeeping fields, the six configuration
fields, the SDK/platform identifiers, and the custom-config map (a Go
`map[string]string`, modelled as an association list). -/
structure APIRequest where
  response : String := ""
  statusCode : String := ""
  APIKey : String := ""
  APISecret : String := ""
  Protocol : String := ""
  Domain : String := ""
  Prefix : String := ""
  AppId : String := ""
  SdkVersion : String := ""
  OsPlatform : String := ""
  Config : List (String × String) := []
deriving Repr, DecidableEq

/-- `RandomString(n)` hex-encodes the `n` bytes drawn from `crypto/rand`.
The draw is an effect: the drawn bytes are passed in as `b` (the Go code
ignores any read error, so `b` is whatever ended up in the buffer). -/
def RandomString (b : List Nat) : String := hexEncode b

/-- `GetAuthorization`: draw a 20-byte salt, take the current RFC 3339
timestamp, MAC `date + salt` under `APISecret`, and format the header value.
The two effects are parameters: `randomBytes` is the salt draw (20 bytes in
the Go code) and `date` is `time.Now().Format(time.RFC3339)`. -/
def APIRequest.GetAuthorization (a : APIRequest) (randomBytes : List Nat)
    (date : String) : String :=
  let salt := RandomString randomBytes
  let signature := hexEncode (hmacSha256 (utf8Bytes a.APISecret)
    (utf8Bytes (date ++ salt)))
  "HMAC-SHA256 apiKey=" ++ a.APIKey ++ ", date=" ++ date ++ ", salt=" ++ salt ++
    ", signature=" ++ signature

/-! ## JSON bodies

The repository decodes every body with `encoding/json` (the Go standard
library, outside this repository).  The claims only exercise decoding on
flat JSON objects with string fields — `\x7b"errorCode": ..,
"errorMessage": ..\x7d` and result containers such as `\x7b"id": ..\x7d` —
so the stdlib decoder is modelled on exactly that fragment: an object of
string keys and string values, no escape sequences, unknown fields ignored,
absent fields leaving the container's old value (Go's semantics). -/

/-- The opening brace character. -/
def lbrace : Char := Char.ofNat 123

/-- The closing brace character. -/
def rbrace : Char := Char.ofNat 125

/-- Drop leading JSON whitespace. -/
def skipWs : List Char → List Char
  | [] => []
  | c :: r => if c = ' ' ∨ c = '\t' ∨ c = '\n' ∨ c = '\r' then skipWs r else c :: r

/-- Parse a quoted string literal (no escape sequences). -/
def parseStringLit : List Char → Option (String × List Char)
  | '"' :: rest =>
    match rest.dropWhile (fun c => c ≠ '"') with
    | '"' :: r2 => some (String.mk (rest.takeWhile (fun c => c ≠ '"')), r2)
    | _ => none
  | _ => none

/-- Parse a nonempty comma-separated list of `"key": "value"` members; the
fuel argument bounds the recursion by the input length. -/
def parseMembers : Nat → List Char → Option (List (String × String) × List Char)
  | 0, _ => none
  | fuel + 1, l =>
    match parseStringLit (skipWs l) with
    | none => none
    | some (k, r1) =>
      match skipWs r1 with
      | ':' :: r2 =>
        match parseStringLit (skipWs r2) with
        | none => none
        | some (v, r3) =>
          match skipWs r3 with
          | ',' :: r4 =>
            match parseMembers fuel r4 with
            | none => none
            | some (kvs, r5) => some ((k, v) :: kvs, r5)
          | r4 => some ([(k, v)], r4)
      | _ => none

/-- Parse a whole body as a flat JSON object of string fields; `none` is a
JSON syntax error. -/
def parseFlatObj (s : String) : Option (List (String × String)) :=
  match skipWs s.data with
  | [] => none
  | c :: r =>
    if c = lbrace then
      match skipWs r with
      | [] => none
      | d :: r2 =>
        if d = rbrace then (if skipWs r2 = [] then some [] else none)
        else
          match parseMembers (s.data.length + 1) (d :: r2) with
          | none => none
          | some (kvs, rem) =>
            match skipWs rem with
            | [] => none
            | e :: r3 => if e = rbrace ∧ skipWs r3 = [] then some kvs else none
    else none

/-! ## Go error values and the error taxonomy of the spec -/

/-- A Go `error` value as this code produces them: a plain message error
(`errors.New`, package sentinels) or an `encoding/json` decode error,
returned as-is. -/
inductive GoError where
  | message (s : String)
  | jsonDecode (s : String)
deriving Repr, DecidableEq

/-- The package sentinel `errFailedToConvertJSON`. -/
def errFailedToConvertJSON : GoError := .message "FailedToConvertJSON"

/-- The package sentinel `errFailedToClientRequest`. -/
def errFailedToClientRequest : GoError := .message "FailedToClientRequest"

/-- Modelled from the spec: the repository's `types.CustomError` container
(the `types` package is not under `src/`); the spec gives the error body
shape `\x7berrorCode, errorMessage\x7d`. -/
structure CustomError where
  ErrorCode : String := ""
  ErrorMessage : String := ""
deriving Repr, DecidableEq

/-- Decode a body into `types.CustomError`: a syntax error on malformed
JSON, otherwise the two fields, with Go's zero value for absent fields. -/
def decodeCustomError (body : String) : Except String CustomError :=
  match parseFlatObj body with
  | none => .error "invalid JSON"
  | some kvs =>
    .ok { ErrorCode := (kvs.lookup "errorCode").getD "",
          ErrorMessage := (kvs.lookup "errorMessage").getD "" }

/-- The spec's `RemoteApiError\x7bcode, message, status\x7d`, as the code
realizes it: the error the code builds from the decoded error body and the
HTTP status via `fmt.Sprintf("%s[%d]:%s", ...)` and `errors.New`. -/
def RemoteApiError (code msg : String) (status : Nat) : GoError :=
  .message (code ++ "[" ++ toString status ++ "]:" ++ msg)

/-- The spec's `DecodeError`: the `encoding/json` failure returned as-is. -/
def DecodeError (e : String) : GoError := .jsonDecode e

/-- The spec's `SerializationError`, realized as `errFailedToConvertJSON`. -/
def SerializationError : GoError := errFailedToConvertJSON

/-- The spec's `TransportError`, realized as `errFailedToClientRequest`. -/
def TransportError : GoError := errFailedToClientRequest

/-! ## The HTTP layer of `apirequest.go`

Effects are parameters: `randomBytes` and `date` feed `GetAuthorization`
(the salt draw and `time.Now().Format(time.RFC3339)`), `transport` is
`client.Do`, `decodeInto` is `json.NewDecoder(resp.Body).Decode` into the
caller's container of type `σ`, and for `Request` the `json.Marshal` of the
`interface\x7b\x7d` params is passed as its `Except` outcome.  Each call
returns the Go error result, the final container, and the list of requests
handed to the transport (so that "no request was issued" is statable). -/

/-- An outbound request as handed to `client.Do`: method, the formatted URL,
the query parameters added to it (their `net/url` percent-encoding is
stdlib and left symbolic), the headers, and the body. -/
structure HttpRequest where
  method : String
  url : String
  query : List (String × String)
  headers : List (String × String)
  body : String
deriving Repr, DecidableEq

/-- An HTTP response: status code and raw body. -/
structure HttpResponse where
  statusCode : Nat
  body : String
deriving Repr, DecidableEq

/-- The outcome of `client.Do`: a transport failure or a response. -/
inductive TransportResult where
  | failure (msg : String)
  | success (resp : HttpResponse)
deriving Repr, DecidableEq

/-- The URL `fmt.Sprintf("%s://%s/%s%s", a.Protocol, a.Domain, a.Prefix,
resource)` both calls format. -/
def APIRequest.requestURL (a : APIRequest) (resource : String) : String :=
  a.Protocol ++ "://" ++ a.Domain ++ "/" ++ a.Prefix ++ resource

/-- The request `GET` builds before calling `client.Do`: the formatted URL,
the query parameters, the two headers, and no body. -/
def APIRequest.buildGETRequest (a : APIRequest) (randomBytes : List Nat)
    (date resource : String) (params : List (String × String)) : HttpRequest :=
  { method := "GET", url := a.requestURL resource, query := params,
    headers := [("Content-Type", "application/json"),
                ("Authorization", a.GetAuthorization randomBytes date)],
    body := "" }

/-- The request `Request` builds before calling `client.Do`: the caller's
method, the formatted URL, the two headers, and the marshalled JSON body. -/
def APIRequest.buildBodyRequest (a : APIRequest) (randomBytes : List Nat)
    (date method resource jsonString : String) : HttpRequest :=
  { method := method, url := a.requestURL resource, query := [],
    headers := [("Content-Type", "application/json"),
                ("Authorization", a.GetAuthorization randomBytes date)],
    body := jsonString }

/-- `GET`: format the URL, add query parameters, set the `Content-Type` and
`Authorization` headers, send, and handle the response (non-200 statuses
are decoded as `types.CustomError` and turned into a formatted error; a 200
body is decoded into the caller's container). -/
def APIRequest.GET {σ : Type} (a : APIRequest) (randomBytes : List Nat)
    (date : String) (transport : HttpRequest → TransportResult)
    (decodeInto : String → σ → Except String σ)
    (resource : String) (params : List (String × String)) (container : σ) :
    Option GoError × σ × List HttpRequest :=
  let req := a.buildGETRequest randomBytes date resource params
  match transport req with
  | .failure _ => (some errFailedToClientRequest, container, [req])
  | .success resp =>
    if resp.statusCode ≠ 200 then
      match decodeCustomError resp.body with
      | .error e => (some (.jsonDecode e), container, [req])
      | .ok errorStruct =>
        (some (.message (errorStruct.ErrorCode ++ "[" ++
          toString resp.statusCode ++ "]:" ++ errorStruct.ErrorMessage)),
         container, [req])
    else
      match decodeInto resp.body container with
      | .error e => (some (.jsonDecode e), container, [req])
      | .ok c2 => (none, c2, [req])

/-- `Request`: marshal the params to JSON (failing with the
`errFailedToConvertJSON` sentinel before any request is built), then format
the URL, set the two headers, send, and handle the response exactly as
`GET` does. -/
def APIRequest.Request {σ : Type} (a : APIRequest) (randomBytes : List Nat)
    (date : String) (transport : HttpRequest → TransportResult)
    (decodeInto : String → σ → Except String σ)
    (method resource : String) (marshalled : Except String String)
    (container : σ) : Option GoError × σ × List HttpRequest :=
  match marshalled with
  | .error _ => (some errFailedToConvertJSON, container, [])
  | .ok jsonString =>
    let req := a.buildBodyRequest randomBytes date method resource jsonString
    match transport req with
    | .failure _ => (some errFailedToClientRequest, container, [req])
    | .success resp =>
      if resp.statusCode ≠ 200 then
        match decodeCustomError resp.body with
        | .error e => (some (.jsonDecode e), container, [req])
        | .ok errorStruct =>
          (some (.message (errorStruct.ErrorCode ++ "[" ++
            toString resp.statusCode ++ "]:" ++ errorStruct.ErrorMessage)),
           container, [req])
      else
        match decodeInto resp.body container with
        | .error e => (some (.jsonDecode e), container, [req])
        | .ok c2 => (none, c2, [req])

/-- `POST` fixes the method of `Request`. -/
def APIRequest.POST {σ : Type} (a : APIRequest) (randomBytes : List Nat)
    (date : String) (transport : HttpRequest → TransportResult)
    (decodeInto : String → σ → Except String σ) (resource : String)
    (marshalled : Except String String) (container : σ) :
    Option GoError × σ × List HttpRequest :=
  a.Request randomBytes date transport decodeInto "POST" resource marshalled
    container

/-- `PUT` fixes the method of `Request`. -/
def APIRequest.PUT {σ : Type} (a : APIRequest) (randomBytes : List Nat)
    (date : String) (transport : HttpRequest → TransportResult)
    (decodeInto : String → σ → Except String σ) (resource : String)
    (marshalled : Except String String) (container : σ) :
    Option GoError × σ × List HttpRequest :=
  a.Request randomBytes date transport decodeInto "PUT" resource marshalled
    container

/-- `DELETE` fixes the method of `Request`. -/
def APIRequest.DELETE {σ : Type} (a : APIRequest) (randomBytes : List Nat)
    (date : String) (transport : HttpRequest → TransportResult)
    (decodeInto : String → σ → Except String σ) (resource : String)
    (marshalled : Except String String) (container : σ) :
    Option GoError × σ × List HttpRequest :=
  a.Request randomBytes date transport decodeInto "DELETE" resource marshalled
    container

/-! ## `SetCustomConfig` -/

/-- One iteration of the `SetCustomConfig` range loop: the `switch` on the
key, setting the matching field. -/
def applyConfigEntry (a : APIRequest) (kv : String × String) : APIRequest :=
  match kv.1 with
  | "APIKey" => { a with APIKey := kv.2 }
  | "APISecret" => { a with APISecret := kv.2 }
  | "Protocol" => { a with Protocol := kv.2 }
  | "Domain" => { a with Domain := kv.2 }
  | "Prefix" => { a with Prefix := kv.2 }
  | "AppId" => { a with AppId := kv.2 }
  | _ => a

/-- `SetCustomConfig` ranges over the map applying the switch, and returns
`nil`.  (The six keys touch six distinct fields, so the Go map's iteration
order does not matter; the map is passed as an association list.) -/
def APIRequest.SetCustomConfig (a : APIRequest)
    (config : List (String × String)) : APIRequest × Option GoError :=
  (config.foldl applyConfigEntry a, none)

/-! ## The storage module (`Storage.UploadFile`) -/

/-- Modelled from the spec: the `types.File` result container (the `types`
package is not under `src/`), an uploaded-file record, zero-valued until a
response is decoded into it. -/
structure File where
  fileId : String := ""
deriving Repr, DecidableEq

/-- What the filesystem yields for a path: `os.Open` fails, reading fails,
or the file's bytes. -/
inductive FileAccess where
  | notFound
  | readError
  | content (bytes : List Nat)

/-- The storage package sentinel `errFailToReadFile`. -/
def errFailToReadFile : GoError := .message "FailToReadFile"

/-- The storage package sentinel `errFileNotFound`. -/
def errFileNotFound : GoError := .message "FileNotFound"

/-- One character of the standard base64 alphabet. -/
def b64Char (n : Nat) : Char :=
  if n < 26 then Char.ofNat (65 + n)
  else if n < 52 then Char.ofNat (97 + (n - 26))
  else if n < 62 then Char.ofNat (48 + (n - 52))
  else if n = 62 then '+' else '/'

/-- Standard base64 encoding with padding, Go's
`base64.StdEncoding.EncodeToString`. -/
def base64Encode : List Nat → String
  | b0 :: b1 :: b2 :: rest =>
    String.mk [b64Char (b0 >>> 2), b64Char ((b0 &&& 3) <<< 4 ||| b1 >>> 4),
      b64Char ((b1 &&& 15) <<< 2 ||| b2 >>> 6), b64Char (b2 &&& 63)] ++
      base64Encode rest
  | [b0, b1] =>
    String.mk [b64Char (b0 >>> 2), b64Char ((b0 &&& 3) <<< 4 ||| b1 >>> 4),
      b64Char ((b1 &&& 15) <<< 2)] ++ "="
  | [b0] => String.mk [b64Char (b0 >>> 2), b64Char ((b0 &&& 3) <<< 4)] ++ "=="
  | [] => ""

/-- Go map assignment `m[k] = v` on an association list: replace the binding
when the key is present, append it otherwise. -/
def mapSet (m : List (String × String)) (k v : String) :
    List (String × String) :=
  if (m.lookup k).isSome then
    m.map (fun p => if p.1 = k then (k, v) else p)
  else m ++ [(k, v)]

/-- `Storage.UploadFile`: reject a params map without a `"file"` key or an
unopenable file before any request; otherwise read the file, overwrite
`params["file"]` with the base64 of its contents, and `POST` the mutated
map.  Effects are parameters: `fs` is the filesystem and `post` is the
`POST` call on the fresh `APIRequest` (returning the Go error and the
decoded `File`).  Returns the Go results `(File, error)`, the final params
map, and the list of payloads posted. -/
def UploadFile (fs : String → FileAccess)
    (post : List (String × String) → Option GoError × File)
    (params : List (String × String)) :
    (File × Option GoError) × List (String × String) ×
      List (List (String × String)) :=
  let result : File := {}
  match params.lookup "file" with
  | none => ((result, some errFileNotFound), params, [])
  | some path =>
    match fs path with
    | .notFound => ((result, some errFileNotFound), params, [])
    | .readError => ((result, some errFailToReadFile), params, [])
    | .content bytes =>
      let params2 := mapSet params "file" (base64Encode bytes)
      match post params2 with
      | (some e, res) => ((res, some e), params2, [params2])
      | (none, res) => ((res, none), params2, [params2])

/-! ## Concrete fixtures used by the witnesses -/

/-- A transport that always yields the given response. -/
def respond (resp : HttpResponse) : HttpRequest → TransportResult :=
  fun _ => .success resp

/-- A transport that always fails at the connection level. -/
def failTransport : HttpRequest → TransportResult :=
  fun _ => .failure "connection refused"

/-- The spec's example error body. -/
def errorBody400 : String :=
  "\x7b\"errorCode\":\"BadRequest\",\"errorMessage\":\"bad\"\x7d"

/-- The spec's example result body. -/
def idBody : String := "\x7b\"id\": \"abc\"\x7d"

/-- A caller result container with one string field `id`. -/
structure IdContainer where
  id : String := ""
deriving Repr, DecidableEq

/-- Decode a body into `IdContainer` with the modelled stdlib semantics:
syntax error on malformed JSON, absent field keeping the old value. -/
def decodeIdContainer (body : String) (c : IdContainer) :
    Except String IdContainer :=
  match parseFlatObj body with
  | none => .error "invalid JSON"
  | some kvs => .ok { id := (kvs.lookup "id").getD c.id }

/-- A decode function for a container with no fields. -/
def decodeUnit : String → Unit → Except String Unit := fun _ c => .ok c

/-- A filesystem on which every path holds the bytes of `"hello"`. -/
def fsHello : String → FileAccess := fun _ => .content [104, 101, 108, 108, 111]

/-- A filesystem on which `os.Open` fails for every path. -/
def fsMissing : String → FileAccess := fun _ => .notFound

/-- A `POST` stub that succeeds with a fixed decoded `File`. -/
def postOk : List (String × String) → Option GoError × File :=
  fun _ => (none, { fileId := "F1" })

/-! # Theorems -/

/-! ## The hash, MAC and encoders -/

/-- FIPS 180-4 test vector: the model of SHA-256 digests `"abc"` correctly. -/
theorem sha256_vector_abc : hexEncode (sha256 ("abc".data.map Char.toNat)) =
    "ba7816bf8f01cfea414140de5dae2223b00361a396177a9cb410ff61f20015ad" := by
  decide

/-- SHA-256 of the empty string matches the published digest. -/
theorem sha256_vector_empty : hexEncode (sha256 []) =
    "e3b0c44298fc1c149afbf4c8996fb92427ae41e4649b934ca495991b7852b855" := by
  decide

/-- RFC 4231 test case 2: the model of HMAC-SHA256 matches the published MAC. -/
theorem hmacSha256_vector_rfc4231 :
    hexEncode (hmacSha256 ("Jefe".data.map Char.toNat)
      ("what do ya want for nothing?".data.map Char.toNat)) =
    "5bdcc146bf60754e6a042426089575c75a003f089d2739839dec58b964ec3843" := by
  decide

/-- Go's `base64.StdEncoding` vector. -/
theorem base64Encode_hello :
    base64Encode ("hello".data.map Char.toNat) = "aGVsbG8=" := by decide

/-- The flat-object JSON model parses the spec's example error body. -/
theorem parseFlatObj_error_body :
    parseFlatObj "\x7b\"errorCode\":\"BadRequest\",\"errorMessage\":\"bad\"\x7d" =
      some [("errorCode", "BadRequest"), ("errorMessage", "bad")] := by decide

/-- The flat-object JSON model rejects the spec's malformed body. -/
theorem parseFlatObj_not_json : parseFlatObj "not-json" = none := by decide

theorem utf8Bytes_foldr_init (l : List Char) (init : List Nat) :
    l.foldr (fun c r => encChar c ++ r) init =
      l.foldr (fun c r => encChar c ++ r) [] ++ init := by
  induction l with
  | nil => simp
  | cons c t ih => simp [ih, List.append_assoc]

/-- Byte conversion is a homomorphism for string concatenation: the bytes of
`a ++ b` are the bytes of `a` followed immediately by the bytes of `b`. -/
theorem utf8Bytes_append (a b : String) :
    utf8Bytes (a ++ b) = utf8Bytes a ++ utf8Bytes b := by
  simp only [utf8Bytes, String.data_append, List.foldr_append]
  exact utf8Bytes_foldr_init a.data _

theorem hexDigit_mem_of_lt {n : Nat} (h : n < 16) :
    hexDigit n ∈ lowerHexDigits := by
  interval_cases n <;> decide

theorem be32Bytes_lt {n b : Nat} (h : b ∈ be32Bytes n) : b < 256 := by
  simp only [be32Bytes, List.mem_cons, List.not_mem_nil, or_false] at h
  rcases h with h | h | h | h <;> omega

theorem sha256Digest_byte_lt (s : Hash8) : ∀ b ∈ sha256Digest s, b < 256 := by
  intro b hb
  simp only [sha256Digest, List.mem_append] at hb
  rcases hb with ((((((hb | hb) | hb) | hb) | hb) | hb) | hb) | hb <;>
    exact be32Bytes_lt hb

theorem sha256Digest_length (s : Hash8) : (sha256Digest s).length = 32 := by
  simp [sha256Digest, be32Bytes]

theorem sha256_byte_lt (m : List Nat) : ∀ b ∈ sha256 m, b < 256 := by
  intro b hb
  exact sha256Digest_byte_lt _ b hb

theorem sha256_length (m : List Nat) : (sha256 m).length = 32 :=
  sha256Digest_length _

theorem hmacSha256_byte_lt (key m : List Nat) :
    ∀ b ∈ hmacSha256 key m, b < 256 := by
  intro b hb
  simp only [hmacSha256] at hb
  exact sha256_byte_lt _ b hb

theorem hmacSha256_length (key m : List Nat) :
    (hmacSha256 key m).length = 32 := by
  simp only [hmacSha256]
  exact sha256_length _

theorem hexChars_cons (b : Nat) (t : List Nat) :
    hexChars (b :: t) =
      hexDigit (b >>> 4) :: hexDigit (b &&& 15) :: hexChars t := rfl

theorem hexChars_length (bs : List Nat) : (hexChars bs).length = 2 * bs.length := by
  induction bs with
  | nil => rfl
  | cons b t ih => simp only [hexChars_cons, List.length_cons, ih]; omega

theorem hexChars_mem (bs : List Nat) (h : ∀ b ∈ bs, b < 256) :
    ∀ c ∈ hexChars bs, c ∈ lowerHexDigits := by
  induction bs with
  | nil => simp [hexChars]
  | cons b t ih =>
    intro c hc
    have hb : b < 256 := h b (List.mem_cons_self b t)
    rw [hexChars_cons] at hc
    rcases List.mem_cons.mp hc with rfl | hc
    · refine hexDigit_mem_of_lt ?hhi
      have : b >>> 4 = b / 2 ^ 4 := Nat.shiftRight_eq_div_pow b 4
      omega
    · rcases List.mem_cons.mp hc with rfl | hc
      · refine hexDigit_mem_of_lt ?hlo
        have : b &&& 15 ≤ 15 := Nat.and_le_right
        omega
      · exact ih (fun x hx => h x (List.mem_cons_of_mem _ hx)) c hc

theorem hexEncode_data (bs : List Nat) : (hexEncode bs).data = hexChars bs := rfl

theorem hexEncode_length (bs : List Nat) :
    (hexEncode bs).length = 2 * bs.length := by
  have : (hexEncode bs).length = (hexChars bs).length := rfl
  rw [this, hexChars_length]

/-- Every character of a hex-encoded MAC is a lowercase hex digit. -/
theorem hexEncode_hmac_lower (key m : List Nat) :
    ∀ c ∈ (hexEncode (hmacSha256 key m)).data, c ∈ lowerHexDigits := by
  rw [hexEncode_data]
  exact hexChars_mem _ (hmacSha256_byte_lt key m)

/-! ## Claim theorems: the signing algorithm -/

/-- C1: for every `apiSecret`, timestamp and salt draw, the signature field
of `GetAuthorization` is exactly the lowercase hex encoding of HMAC-SHA256
keyed by the secret's bytes over the timestamp's bytes followed immediately
by the salt's bytes (no separator), and every character of it is a
lowercase hex digit.  Determinism and byte-for-byte reproducibility are
definitional: the embedding is a pure function of `(secret, date, salt)`,
and `getAuthorization_reference_vector` below checks it against an
independently computed HMAC-SHA256 reference value. -/
theorem getAuthorization_signature_spec (a : APIRequest)
    (randomBytes : List Nat) (date : String) :
    a.GetAuthorization randomBytes date =
      "HMAC-SHA256 apiKey=" ++ a.APIKey ++ ", date=" ++ date ++ ", salt=" ++
        RandomString randomBytes ++ ", signature=" ++
        hexEncode (hmacSha256 (utf8Bytes a.APISecret)
          (utf8Bytes date ++ utf8Bytes (RandomString randomBytes))) ∧
    ∀ c ∈ (hexEncode (hmacSha256 (utf8Bytes a.APISecret)
        (utf8Bytes date ++ utf8Bytes (RandomString randomBytes)))).data,
      c ∈ lowerHexDigits := by
  refine ⟨?_, hexEncode_hmac_lower _ _⟩
  simp only [APIRequest.GetAuthorization, utf8Bytes_append]

/-- C1 witness: the signing equation at a concrete secret, date and draw. -/
theorem getAuthorization_signature_spec_witness :
    ({ APIKey := "KEY", APISecret := "sec" } : APIRequest).GetAuthorization
        (List.replicate 20 0) "2019-07-01T00:41:48+09:00" =
      "HMAC-SHA256 apiKey=" ++ "KEY" ++ ", date=" ++
        "2019-07-01T00:41:48+09:00" ++ ", salt=" ++
        RandomString (List.replicate 20 0) ++ ", signature=" ++
        hexEncode (hmacSha256 (utf8Bytes "sec")
          (utf8Bytes "2019-07-01T00:41:48+09:00" ++
            utf8Bytes (RandomString (List.replicate 20 0)))) := by
  exact (getAuthorization_signature_spec { APIKey := "KEY", APISecret := "sec" }
    (List.replicate 20 0) "2019-07-01T00:41:48+09:00").1

/-- The full header on a concrete input matches a reference vector computed
with an independent HMAC-SHA256 implementation (key `"sec"`, message the
RFC 3339 date immediately followed by the 40-character hex salt). -/
theorem getAuthorization_reference_vector :
    ({ APIKey := "KEY", APISecret := "sec" } : APIRequest).GetAuthorization
        (List.replicate 20 0) "2019-07-01T00:41:48+09:00" =
      "HMAC-SHA256 apiKey=KEY, date=2019-07-01T00:41:48+09:00, " ++
        "salt=0000000000000000000000000000000000000000, " ++
        "signature=e6624e0300afbfd96f79aeeead92ce3daa8388a48249cd1d86afe8c5b462541d" := by
  decide

/-- C8: with an unconfigured (empty) `apiSecret`, `GetAuthorization` still
returns a structurally valid header: the call is total (no panic), the
header is non-empty, and the signature field is the 64-character lowercase
hex HMAC-SHA256 under the empty key — in particular non-empty. -/
theorem empty_secret_signature_spec (a : APIRequest) (randomBytes : List Nat)
    (date : String) (h : a.APISecret = "") :
    a.GetAuthorization randomBytes date ≠ "" ∧
    a.GetAuthorization randomBytes date =
      "HMAC-SHA256 apiKey=" ++ a.APIKey ++ ", date=" ++ date ++ ", salt=" ++
        RandomString randomBytes ++ ", signature=" ++
        hexEncode (hmacSha256 []
          (utf8Bytes (date ++ RandomString randomBytes))) ∧
    (hexEncode (hmacSha256 []
      (utf8Bytes (date ++ RandomString randomBytes)))).length = 64 := by
  have hu : utf8Bytes a.APISecret = [] := by rw [h]; rfl
  have heq : a.GetAuthorization randomBytes date =
      "HMAC-SHA256 apiKey=" ++ a.APIKey ++ ", date=" ++ date ++ ", salt=" ++
        RandomString randomBytes ++ ", signature=" ++
        hexEncode (hmacSha256 []
          (utf8Bytes (date ++ RandomString randomBytes))) := by
    simp only [APIRequest.GetAuthorization, hu]
  refine ⟨?_, heq, ?_⟩
  · intro hc
    have hlen := congrArg String.length (heq ▸ hc)
    have h19 : ("HMAC-SHA256 apiKey=" : String).length = 19 := rfl
    have h0 : ("" : String).length = 0 := rfl
    simp only [String.length_append, h19, h0] at hlen
    omega
  · rw [hexEncode_length, hmacSha256_length]

/-- C8 witness: the empty-secret header at a concrete input. -/
theorem empty_secret_signature_spec_witness :
    ({} : APIRequest).GetAuthorization [] "" ≠ "" ∧
    ({} : APIRequest).GetAuthorization [] "" =
      "HMAC-SHA256 apiKey=" ++ "" ++ ", date=" ++ "" ++ ", salt=" ++
        RandomString [] ++ ", signature=" ++
        hexEncode (hmacSha256 [] (utf8Bytes ("" ++ RandomString []))) ∧
    (hexEncode (hmacSha256 [] (utf8Bytes ("" ++ RandomString [])))).length = 64 :=
  empty_secret_signature_spec {} [] "" rfl

/-! ## Claim theorems: configuration -/

/-- C7: `SetCustomConfig` is a no-op on the empty map and never errors; an
unrecognized key changes nothing; each of the six recognized keys sets
exactly its field; and for every map the non-configuration fields are
untouched. -/
theorem setCustomConfig_spec (a : APIRequest)
    (config : List (String × String)) (k v : String)
    (hk : k ∉ ["APIKey", "APISecret", "Protocol", "Domain", "Prefix", "AppId"]) :
    a.SetCustomConfig [] = (a, none) ∧
    (a.SetCustomConfig config).2 = none ∧
    a.SetCustomConfig [(k, v)] = (a, none) ∧
    a.SetCustomConfig [("APIKey", v)] = ({ a with APIKey := v }, none) ∧
    a.SetCustomConfig [("APISecret", v)] = ({ a with APISecret := v }, none) ∧
    a.SetCustomConfig [("Protocol", v)] = ({ a with Protocol := v }, none) ∧
    a.SetCustomConfig [("Domain", v)] = ({ a with Domain := v }, none) ∧
    a.SetCustomConfig [("Prefix", v)] = ({ a with Prefix := v }, none) ∧
    a.SetCustomConfig [("AppId", v)] = ({ a with AppId := v }, none) ∧
    (a.SetCustomConfig config).1.SdkVersion = a.SdkVersion ∧
    (a.SetCustomConfig config).1.OsPlatform = a.OsPlatform := by
  refine ⟨rfl, rfl, ?_, rfl, rfl, rfl, rfl, rfl, rfl, ?_, ?_⟩
  · simp only [APIRequest.SetCustomConfig, List.foldl_cons, List.foldl_nil]
    simp only [applyConfigEntry]
    split <;> simp_all
  all_goals
    simp only [APIRequest.SetCustomConfig]
    induction config generalizing a with
    | nil => rfl
    | cons kv t ih =>
      rw [List.foldl_cons, ih]
      simp only [applyConfigEntry]
      split <;> rfl

/-- C7 witness: a concrete mixed map with an unrecognized key. -/
theorem setCustomConfig_spec_witness :
    ({} : APIRequest).SetCustomConfig [] = ({}, none) ∧
    (({} : APIRequest).SetCustomConfig [("Domain", "x.test"), ("junk", "k")]).2 =
      none ∧
    ({} : APIRequest).SetCustomConfig [("junk", "k")] = ({}, none) ∧
    ({} : APIRequest).SetCustomConfig [("APIKey", "k")] =
      ({ APIKey := "k" }, none) ∧
    ({} : APIRequest).SetCustomConfig [("APISecret", "k")] =
      ({ APISecret := "k" }, none) ∧
    ({} : APIRequest).SetCustomConfig [("Protocol", "k")] =
      ({ Protocol := "k" }, none) ∧
    ({} : APIRequest).SetCustomConfig [("Domain", "k")] =
      ({ Domain := "k" }, none) ∧
    ({} : APIRequest).SetCustomConfig [("Prefix", "k")] =
      ({ Prefix := "k" }, none) ∧
    ({} : APIRequest).SetCustomConfig [("AppId", "k")] =
      ({ AppId := "k" }, none) ∧
    (({} : APIRequest).SetCustomConfig
      [("Domain", "x.test"), ("junk", "k")]).1.SdkVersion = ({} : APIRequest).SdkVersion ∧
    (({} : APIRequest).SetCustomConfig
      [("Domain", "x.test"), ("junk", "k")]).1.OsPlatform = ({} : APIRequest).OsPlatform := by
  exact setCustomConfig_spec {} [("Domain", "x.test"), ("junk", "k")] "junk" "k"
    (by decide)

/-! ## Claim theorems: the HTTP layer -/

/-- `GET` hands the transport exactly the one request it builds, on every
branch of the response handling. -/
theorem GET_log {σ : Type} (a : APIRequest) (randomBytes : List Nat)
    (date : String) (transport : HttpRequest → TransportResult)
    (decodeInto : String → σ → Except String σ) (resource : String)
    (params : List (String × String)) (container : σ) :
    (a.GET randomBytes date transport decodeInto resource params
        container).2.2 =
      [a.buildGETRequest randomBytes date resource params] := by
  simp only [APIRequest.GET]
  split
  · rfl
  · split
    · split <;> rfl
    · split <;> rfl

/-- `Request`, once marshalling succeeded, hands the transport exactly the
one request it builds, on every branch of the response handling. -/
theorem Request_log {σ : Type} (a : APIRequest) (randomBytes : List Nat)
    (date : String) (transport : HttpRequest → TransportResult)
    (decodeInto : String → σ → Except String σ) (method resource js : String)
    (container : σ) :
    (a.Request randomBytes date transport decodeInto method resource
        (.ok js) container).2.2 =
      [a.buildBodyRequest randomBytes date method resource js] := by
  simp only [APIRequest.Request]
  split
  · rfl
  · split
    · split <;> rfl
    · split <;> rfl

/-- C2: a response with status other than 200 fails the call, for `GET` and
for `Request` alike: when the body decodes as `\x7berrorCode,
errorMessage\x7d` the error carries that code, that message and the HTTP
status (`RemoteApiError`); when the error body itself does not decode, the
decode failure itself is returned, not the status error. -/
theorem non200_response_error_spec {σ : Type} (a : APIRequest)
    (randomBytes : List Nat) (date : String)
    (transport : HttpRequest → TransportResult)
    (decodeInto : String → σ → Except String σ) (method resource : String)
    (params : List (String × String)) (js : String) (container : σ)
    (resp : HttpResponse)
    (hG : transport (a.buildGETRequest randomBytes date resource params) =
      .success resp)
    (hR : transport (a.buildBodyRequest randomBytes date method resource js) =
      .success resp)
    (hst : resp.statusCode ≠ 200) :
    ((∀ es, decodeCustomError resp.body = .ok es →
        (a.GET randomBytes date transport decodeInto resource params
          container).1 =
          some (RemoteApiError es.ErrorCode es.ErrorMessage resp.statusCode)) ∧
      (∀ e, decodeCustomError resp.body = .error e →
        (a.GET randomBytes date transport decodeInto resource params
          container).1 = some (DecodeError e))) ∧
    ((∀ es, decodeCustomError resp.body = .ok es →
        (a.Request randomBytes date transport decodeInto method resource
          (.ok js) container).1 =
          some (RemoteApiError es.ErrorCode es.ErrorMessage resp.statusCode)) ∧
      (∀ e, decodeCustomError resp.body = .error e →
        (a.Request randomBytes date transport decodeInto method resource
          (.ok js) container).1 = some (DecodeError e))) := by
  refine ⟨⟨?_, ?_⟩, ?_, ?_⟩ <;> intro x hx <;>
    simp only [APIRequest.GET, APIRequest.Request, hG, hR] <;>
    rw [if_pos hst, hx] <;> rfl

/-- C2 witness: the spec's 400 example and an undecodable 500 error body. -/
theorem non200_response_error_spec_witness :
    (({} : APIRequest).GET [] "" (respond ⟨400, errorBody400⟩) decodeUnit
        "r" [] ()).1 = some (RemoteApiError "BadRequest" "bad" 400) ∧
    (({} : APIRequest).Request [] "" (respond ⟨400, errorBody400⟩) decodeUnit
        "POST" "r" (.ok "") ()).1 =
      some (RemoteApiError "BadRequest" "bad" 400) ∧
    (({} : APIRequest).GET [] "" (respond ⟨500, "not-json"⟩) decodeUnit
        "r" [] ()).1 = some (DecodeError "invalid JSON") :=
  ⟨(non200_response_error_spec {} [] "" (respond ⟨400, errorBody400⟩)
      decodeUnit "POST" "r" [] "" () ⟨400, errorBody400⟩ rfl rfl
      (by decide)).1.1 ⟨"BadRequest", "bad"⟩ rfl,
   (non200_response_error_spec {} [] "" (respond ⟨400, errorBody400⟩)
      decodeUnit "POST" "r" [] "" () ⟨400, errorBody400⟩ rfl rfl
      (by decide)).2.1 ⟨"BadRequest", "bad"⟩ rfl,
   (non200_response_error_spec {} [] "" (respond ⟨500, "not-json"⟩)
      decodeUnit "POST" "r" [] "" () ⟨500, "not-json"⟩ rfl rfl
      (by decide)).1.2 "invalid JSON" rfl⟩

/-- C3: a 200 response is decoded directly into the caller's container: on
decode success the call returns no error and the decoded container; on a
malformed 200 body the call fails with the decode error (`DecodeError`),
never succeeding with an empty result. -/
theorem ok_response_decode_spec {σ : Type} (a : APIRequest)
    (randomBytes : List Nat) (date : String)
    (transport : HttpRequest → TransportResult)
    (decodeInto : String → σ → Except String σ) (method resource : String)
    (params : List (String × String)) (js : String) (container : σ)
    (resp : HttpResponse)
    (hG : transport (a.buildGETRequest randomBytes date resource params) =
      .success resp)
    (hR : transport (a.buildBodyRequest randomBytes date method resource js) =
      .success resp)
    (hst : resp.statusCode = 200) :
    ((∀ c2, decodeInto resp.body container = .ok c2 →
        a.GET randomBytes date transport decodeInto resource params container =
          (none, c2, [a.buildGETRequest randomBytes date resource params])) ∧
      (∀ e, decodeInto resp.body container = .error e →
        a.GET randomBytes date transport decodeInto resource params container =
          (some (DecodeError e), container,
            [a.buildGETRequest randomBytes date resource params]))) ∧
    ((∀ c2, decodeInto resp.body container = .ok c2 →
        a.Request randomBytes date transport decodeInto method resource
          (.ok js) container =
          (none, c2, [a.buildBodyRequest randomBytes date method resource js])) ∧
      (∀ e, decodeInto resp.body container = .error e →
        a.Request randomBytes date transport decodeInto method resource
          (.ok js) container =
          (some (DecodeError e), container,
            [a.buildBodyRequest randomBytes date method resource js]))) := by
  refine ⟨⟨?_, ?_⟩, ?_, ?_⟩ <;> intro x hx <;>
    simp only [APIRequest.GET, APIRequest.Request, hG, hR] <;>
    rw [if_neg (fun hne => hne hst), hx] <;> rfl

/-- C3 witness: the spec's `\x7b"id": "abc"\x7d` example decoded into a
container with field `id`, and the `not-json` 200 body. -/
theorem ok_response_decode_spec_witness :
    ({} : APIRequest).GET [] "" (respond ⟨200, idBody⟩) decodeIdContainer
        "r" [] {} =
      (none, { id := "abc" },
        [({} : APIRequest).buildGETRequest [] "" "r" []]) ∧
    ({} : APIRequest).GET [] "" (respond ⟨200, "not-json"⟩) decodeIdContainer
        "r" [] {} =
      (some (DecodeError "invalid JSON"), {},
        [({} : APIRequest).buildGETRequest [] "" "r" []]) :=
  ⟨(ok_response_decode_spec {} [] "" (respond ⟨200, idBody⟩)
      decodeIdContainer "POST" "r" [] "" {} ⟨200, idBody⟩ rfl rfl rfl).1.1
      { id := "abc" } rfl,
   (ok_response_decode_spec {} [] "" (respond ⟨200, "not-json"⟩)
      decodeIdContainer "POST" "r" [] "" {} ⟨200, "not-json"⟩ rfl rfl rfl).1.2
      "invalid JSON" rfl⟩

/-- C5: the one request `GET` sends, and the one request `Request` sends
once marshalling succeeded, carry exactly a `Content-Type:
application/json` header and an `Authorization` header of the exact form
`HMAC-SHA256 apiKey=<k>, date=<date>, salt=<hex>, signature=<hex>` —
comma-separated key=value pairs after the scheme name, the date being the
RFC 3339 `time.Now()` rendering (the `date` effect parameter), the salt
and signature lowercase hex. -/
theorem request_headers_spec {σ : Type} (a : APIRequest)
    (randomBytes : List Nat) (date : String)
    (transport : HttpRequest → TransportResult)
    (decodeInto : String → σ → Except String σ) (method resource : String)
    (params : List (String × String)) (js : String) (container : σ) :
    (a.GET randomBytes date transport decodeInto resource params
        container).2.2 =
      [a.buildGETRequest randomBytes date resource params] ∧
    (a.buildGETRequest randomBytes date resource params).headers =
      [("Content-Type", "application/json"),
       ("Authorization", a.GetAuthorization randomBytes date)] ∧
    (a.Request randomBytes date transport decodeInto method resource
        (.ok js) container).2.2 =
      [a.buildBodyRequest randomBytes date method resource js] ∧
    (a.buildBodyRequest randomBytes date method resource js).headers =
      [("Content-Type", "application/json"),
       ("Authorization", a.GetAuthorization randomBytes date)] ∧
    a.GetAuthorization randomBytes date =
      "HMAC-SHA256 apiKey=" ++ a.APIKey ++ ", date=" ++ date ++ ", salt=" ++
        RandomString randomBytes ++ ", signature=" ++
        hexEncode (hmacSha256 (utf8Bytes a.APISecret)
          (utf8Bytes (date ++ RandomString randomBytes))) :=
  ⟨GET_log a randomBytes date transport decodeInto resource params container,
   rfl,
   Request_log a randomBytes date transport decodeInto method resource js
     container,
   rfl, rfl⟩

/-- C6: `Request` marshals the body payload first: a marshalling failure
fails the call with `SerializationError` (the `errFailedToConvertJSON`
sentinel) before any request reaches the transport — the request log stays
empty and the container untouched; after a successful marshalling the call
follows exactly the send/decode/error contract of `GET`: given the same
transport outcome, the error and container results coincide with `GET`'s. -/
theorem request_serialize_first_spec {σ : Type} (a : APIRequest)
    (randomBytes : List Nat) (date : String)
    (transport : HttpRequest → TransportResult)
    (decodeInto : String → σ → Except String σ) (method resource : String)
    (params : List (String × String)) (marshalled : Except String String)
    (container : σ) :
    (∀ e, marshalled = .error e →
      a.Request randomBytes date transport decodeInto method resource
        marshalled container = (some SerializationError, container, [])) ∧
    (∀ js, marshalled = .ok js →
      transport (a.buildBodyRequest randomBytes date method resource js) =
        transport (a.buildGETRequest randomBytes date resource params) →
      (a.Request randomBytes date transport decodeInto method resource
          marshalled container).1 =
        (a.GET randomBytes date transport decodeInto resource params
          container).1 ∧
      (a.Request randomBytes date transport decodeInto method resource
          marshalled container).2.1 =
        (a.GET randomBytes date transport decodeInto resource params
          container).2.1) := by
  constructor
  · intro e he
    subst he
    rfl
  · intro js hjs htr
    subst hjs
    simp only [APIRequest.Request, APIRequest.GET, htr]
    constructor <;> (split <;> (try split) <;> (try split) <;> rfl)

/-- C6 witness: a failed marshalling issues no request; a successful one
behaves as `GET` on the same 200 response. -/
theorem request_serialize_first_spec_witness :
    ({} : APIRequest).Request [] "" failTransport decodeUnit "POST" "r"
        (.error "boom") () = (some SerializationError, (), []) ∧
    ((({} : APIRequest).Request [] "" (respond ⟨200, idBody⟩) decodeUnit
        "POST" "r" (.ok "\x7b\x7d") ()).1 =
      (({} : APIRequest).GET [] "" (respond ⟨200, idBody⟩) decodeUnit
        "r" [] ()).1 ∧
     (({} : APIRequest).Request [] "" (respond ⟨200, idBody⟩) decodeUnit
        "POST" "r" (.ok "\x7b\x7d") ()).2.1 =
      (({} : APIRequest).GET [] "" (respond ⟨200, idBody⟩) decodeUnit
        "r" [] ()).2.1) :=
  ⟨(request_serialize_first_spec {} [] "" failTransport decodeUnit "POST" "r"
      [] (.error "boom") ()).1 "boom" rfl,
   (request_serialize_first_spec {} [] "" (respond ⟨200, idBody⟩) decodeUnit
      "POST" "r" [] (.ok "\x7b\x7d") ()).2 "\x7b\x7d" rfl rfl⟩

/-- C9: on a response with status other than 200, neither `GET` nor
`Request` ever writes the caller's result container: only the separate
error struct is decoded on that branch, and the container comes back
holding exactly its pre-call value. -/
theorem non200_container_frame_spec {σ : Type} (a : APIRequest)
    (randomBytes : List Nat) (date : String)
    (transport : HttpRequest → TransportResult)
    (decodeInto : String → σ → Except String σ) (method resource : String)
    (params : List (String × String)) (js : String) (container : σ)
    (resp : HttpResponse)
    (hG : transport (a.buildGETRequest randomBytes date resource params) =
      .success resp)
    (hR : transport (a.buildBodyRequest randomBytes date method resource js) =
      .success resp)
    (hst : resp.statusCode ≠ 200) :
    (a.GET randomBytes date transport decodeInto resource params
        container).2.1 = container ∧
    (a.Request randomBytes date transport decodeInto method resource
        (.ok js) container).2.1 = container := by
  constructor <;>
    (simp only [APIRequest.GET, APIRequest.Request, hG, hR]
     rw [if_pos hst]
     cases decodeCustomError resp.body <;> rfl)

/-- C9 witness: a 404 leaves a pre-populated container exactly as it was. -/
theorem non200_container_frame_spec_witness :
    (({} : APIRequest).GET [] "" (respond ⟨404, errorBody400⟩)
        decodeIdContainer "r" [] { id := "pre" }).2.1 =
      ({ id := "pre" } : IdContainer) ∧
    (({} : APIRequest).Request [] "" (respond ⟨404, errorBody400⟩)
        decodeIdContainer "POST" "r" (.ok "") { id := "pre" }).2.1 =
      ({ id := "pre" } : IdContainer) :=
  non200_container_frame_spec {} [] "" (respond ⟨404, errorBody400⟩)
    decodeIdContainer "POST" "r" [] "" { id := "pre" } ⟨404, errorBody400⟩
    rfl rfl (by decide)

/-! ## Claim theorems: the storage module -/

/-- Go map assignment leaves the assigned key bound to the new value. -/
theorem mapSet_lookup_self (m : List (String × String)) (k v : String)
    (h : (m.lookup k).isSome = true) : (mapSet m k v).lookup k = some v := by
  rw [mapSet, if_pos h]
  induction m with
  | nil => simp [List.lookup] at h
  | cons p t ih =>
    rw [List.map_cons]
    by_cases hpk : p.1 = k
    · rw [if_pos hpk]
      simp [List.lookup]
    · rw [if_neg hpk]
      have hne : (k == p.1) = false := by
        simp only [beq_eq_false_iff_ne, ne_eq]
        exact fun he => hpk he.symm
      simp only [List.lookup, hne] at h ⊢
      exact ih h

/-- C10: `UploadFile` mutates the caller's params map: with a readable file
it overwrites `params["file"]` with the base64 of the file's bytes and
posts exactly that mutated map; with the `"file"` key absent or the file
unopenable it returns the `FileNotFound` error with the zero-valued `File`,
posts nothing, and leaves the map untouched. -/
theorem uploadFile_spec (fs : String → FileAccess)
    (post : List (String × String) → Option GoError × File)
    (params : List (String × String)) (path : String) (bytes : List Nat) :
    (params.lookup "file" = none →
      UploadFile fs post params = (({}, some errFileNotFound), params, [])) ∧
    (params.lookup "file" = some path → fs path = .notFound →
      UploadFile fs post params = (({}, some errFileNotFound), params, [])) ∧
    (params.lookup "file" = some path → fs path = .content bytes →
      (UploadFile fs post params).2.1 =
        mapSet params "file" (base64Encode bytes) ∧
      (UploadFile fs post params).2.2 =
        [mapSet params "file" (base64Encode bytes)] ∧
      (mapSet params "file" (base64Encode bytes)).lookup "file" =
        some (base64Encode bytes)) := by
  refine ⟨?_, ?_, ?_⟩
  · intro h
    simp only [UploadFile, h]
  · intro h hf
    simp only [UploadFile, h, hf]
  · intro h hf
    refine ⟨?_, ?_, mapSet_lookup_self _ _ _ (by rw [h]; rfl)⟩ <;>
      (simp only [UploadFile, h, hf]
       split <;> rfl)

/-- C10 witness: a map without the key, an unopenable file, and a readable
`"hello"` file whose base64 replaces the path before posting. -/
theorem uploadFile_spec_witness :
    UploadFile fsHello postOk [("name", "n")] =
      (({}, some errFileNotFound), [("name", "n")], []) ∧
    UploadFile fsMissing postOk [("file", "a.gif")] =
      (({}, some errFileNotFound), [("file", "a.gif")], []) ∧
    ((UploadFile fsHello postOk [("file", "a.gif")]).2.1 =
        mapSet [("file", "a.gif")] "file"
          (base64Encode [104, 101, 108, 108, 111]) ∧
      (UploadFile fsHello postOk [("file", "a.gif")]).2.2 =
        [mapSet [("file", "a.gif")] "file"
          (base64Encode [104, 101, 108, 108, 111])] ∧
      (mapSet [("file", "a.gif")] "file"
          (base64Encode [104, 101, 108, 108, 111])).lookup "file" =
        some (base64Encode [104, 101, 108, 108, 111])) :=
  ⟨(uploadFile_spec fsHello postOk [("name", "n")] "" []).1 rfl,
   (uploadFile_spec fsMissing postOk [("file", "a.gif")] "a.gif" []).2.1
     rfl rfl,
   (uploadFile_spec fsHello postOk [("file", "a.gif")] "a.gif"
     [104, 101, 108, 108, 111]).2.2 rfl rfl⟩

end Solapi
